import Mathlib

/-!
Verification of the serverless-template core: the dependency-injection
context (chalicelib/core/context.py), the request-options model
(chalicelib/domain/request_options.py), the MySQL query translator
(chalicelib/repositories/mysql_translator.py), the repository query entry
point (chalicelib/repositories/mysql_repository.py) and the body parameter
controller (chalicelib/controllers/validation.py), shallowly embedded as
executable Lean definitions.

Python exceptions are modelled with an explicit error type `PyErr`; code
that can raise returns `Except PyErr _`.  Python dictionaries are modelled
as insertion-ordered association lists.  ORM rows are modelled as
association lists from column name to integer value (a relational row with
integer columns).
-/

namespace ServerlessTemplate

/-- Error taxonomy: one constructor per Python exception class reached by the
embedded code paths.  `badRequest` covers both
`aws_resources...BadRequestException` and chalice's `BadRequestError`
(the claims distinguish them only as "bad-request-kind" errors). -/
inductive PyErr where
  | badRequest (msg : String)
  | dependencyInjection (msg : String)
  | database (msg : String)
  | inputParameter (msg : String)
  | typeError (msg : String)
deriving DecidableEq, Repr

/-- Python truthiness of an optional integer: `None` and `0` are falsy. -/
def intTruthy : Option Int → Bool
  | none => false
  | some v => v != 0

/-- Python truthiness of an optional string: `None` and `""` are falsy. -/
def strTruthy : Option String → Bool
  | none => false
  | some s => s != ""

/-! ## Dependency-injection container (chalicelib/core/context.py)

`ApplicationContext` keeps two dictionaries: `registry` (filled at class
definition time by the `RegisteringType` metaclass with the `register`
annotation payload `(tuple(args), kwargs)`) and `active_beans` (the keyed
bean cache).  Bean instances are modelled by their creation order: the
`nextBean` counter is the identity of the next bean the constructor would
produce, so two beans are the same object iff they carry the same number. -/

/-- Payload stored by the `@core.register(...)` decorator:
`f.register = (tuple(args), kwargs)`.  Argument values are strings
(the decorator is used as e.g. `register("singleton")`). -/
structure RegisterProps where
  args : List String
  kwargs : List (String × String)
deriving DecidableEq, Repr

/-- State of the `ApplicationContext` singleton: the metaclass registry,
the `active_beans` dictionary (key → bean identity) and the identity the
next constructed bean will get. -/
structure ContextState where
  registry : List (String × RegisterProps)
  activeBeans : List (String × Nat)
  nextBean : Nat
deriving DecidableEq, Repr

/-- Outcome of invoking the component's own constructor
(`reference(*values)` inside `__create_bean`): success, a raised
`BadRequestException`, or any other exception with its message. -/
inductive CtorOutcome where
  | ok
  | badRequest (msg : String)
  | failure (msg : String)
deriving DecidableEq, Repr

/-- Python dict lookup `d.get(k, None)` on an insertion-ordered assoc list. -/
def dictGet (d : List (String × Nat)) (k : String) : Option Nat :=
  d.lookup k

/-- Python dict assignment `d[k] = v`: replace in place when the key exists,
otherwise append (insertion order). -/
def dictSet (d : List (String × Nat)) (k : String) (v : Nat) : List (String × Nat) :=
  if d.any (fun kv => kv.1 = k) then
    d.map (fun kv => if kv.1 = k then (k, v) else kv)
  else
    d ++ [(k, v)]

/-- `entry.split(".")[0]`: the registry entry name up to the first dot
(registry keys look like `"BodyController.__init__"`). -/
def headBeforeDot (s : String) : String :=
  String.mk (s.toList.takeWhile (fun c => c != '.'))

/-- `"&".join(xs)` over a list of strings. -/
def joinAmp (xs : List String) : String :=
  String.intercalate "&" xs

/-- `"&".join(key)` where `key` is a *string*: Python iterates the string
character by character, so every character gets separated by `&`.  This is
exactly what `__create_bean` does to the composite key it is handed. -/
def joinAmpChars (s : String) : String :=
  String.intercalate "&" (s.toList.map (fun c => String.mk [c]))

/-- The composite key `request_instance` looks up in `active_beans`,
computed from the injection name and the registered `(args, kwargs)`
payload, exactly as the branch in `request_instance` builds it:

* `key[0]` truthy and `key[1]` truthy: `name & args... &` (trailing `&`);
* `key[0]` truthy and `key[1]` falsy: `"" + "&".join(key[1].values())`,
  i.e. the empty string (the conditional expression's `else` arm drops the
  accumulated name);
* `key[0]` falsy and `key[1]` truthy: `name & kwargs-values...`;
* both falsy: the bare injection name. -/
def lookupKeyValue (injectionName : String) (props : RegisterProps) : String :=
  if props.args ≠ [] then
    if props.kwargs ≠ [] then
      injectionName ++ "&" ++ joinAmp props.args ++ "&"
    else
      "" ++ joinAmp (props.kwargs.map Prod.snd)
  else if props.kwargs ≠ [] then
    injectionName ++ "&" ++ joinAmp (props.kwargs.map Prod.snd)
  else
    injectionName

/-- The key `__create_bean` stores the new bean under:
`injection_name + "&" + "&".join(key)` with `key` the composite key
*string*, hence character-interspersed. -/
def storeKey (injectionName keyValue : String) : String :=
  injectionName ++ "&" ++ joinAmpChars keyValue

/-- Message of the `DependencyInjectionException` raised when the
constructor fails inside `__create_bean` (module `chalicelib.core.context`,
function `request_instance`). -/
def createBeanErrorMsg (referenceName originalMsg : String) : String :=
  "[chalicelib.core.context][request_instance]: Occurred some error when creating "
    ++ referenceName ++ ": " ++ originalMsg

/-- Message of the `DependencyInjectionException` raised when the injection
name matches no registry entry. -/
def injectionNotFoundMsg : String :=
  "[chalicelib.core.context][request_instance]: The injection type was not found in registry"

/-- `ApplicationContext.__create_bean`: invoke the constructor; re-raise a
`BadRequestException` unchanged; wrap any other exception into a
`DependencyInjectionException` carrying the original message; on success
store the bean in `active_beans` under `storeKey` and return it.  The
reference's class name and the injection name coincide (`inject` passes
`ref.__name__` as the first element of `values`). -/
def createBean (st : ContextState) (ctor : CtorOutcome)
    (injectionName keyValue : String) : Except PyErr Nat × ContextState :=
  match ctor with
  | CtorOutcome.ok =>
      let bean := st.nextBean
      (Except.ok bean,
        { st with
            activeBeans := dictSet st.activeBeans (storeKey injectionName keyValue) bean
            nextBean := bean + 1 })
  | CtorOutcome.badRequest m => (Except.error (PyErr.badRequest m), st)
  | CtorOutcome.failure m =>
      (Except.error (PyErr.dependencyInjection (createBeanErrorMsg injectionName m)), st)

/-- The `for entry, key in self.registry.items()` loop returns on the first
entry whose name before the dot equals the injection name. -/
def findEntry (registry : List (String × RegisterProps)) (injectionName : String) :
    Option RegisterProps :=
  match registry with
  | [] => none
  | (entry, props) :: rest =>
      if headBeforeDot entry = injectionName then some props
      else findEntry rest injectionName

/-- `ApplicationContext.request_instance`: find the first registry entry for
the injection name; build the composite key; return the active bean for that
key if present, otherwise create (and store) a new one; raise a
`DependencyInjectionException` when no entry matches.  `ctor` is the outcome
the component's constructor would have.  Returns the result together with
the (possibly updated) context state. -/
def request_instance (st : ContextState) (ctor : CtorOutcome) (injectionName : String) :
    Except PyErr Nat × ContextState :=
  match findEntry st.registry injectionName with
  | some props =>
      let keyValue := lookupKeyValue injectionName props
      match dictGet st.activeBeans keyValue with
      | some bean => (Except.ok bean, st)
      | none => createBean st ctor injectionName keyValue
  | none => (Except.error (PyErr.dependencyInjection injectionNotFoundMsg), st)

/-! ### DI container theorems -/

/-- A registry as produced by `@core.register("singleton")` on
`BodyController.__init__`: entry name `"BodyController.__init__"`,
payload `(("singleton",), {})`. -/
def sampleRegistry : List (String × RegisterProps) :=
  [("BodyController.__init__", ⟨["singleton"], []⟩)]

/-- Fresh context holding the sample registration and no active beans. -/
def sampleContext : ContextState :=
  ⟨sampleRegistry, [], 0⟩

/-- C1: the claim is false on the code.  With the registered component
`BodyController` (payload `(("singleton",), {})`) and a fresh context, the
first `request_instance` call constructs bean `0` and stores it under the
key `"BodyController&"`; the second identical call looks up the composite
key `""` (which the store key never equals), misses the cache and
constructs a *new* bean `1`.  Two sequential resolutions with identical
arguments hence return distinct instances and both construct. -/
theorem request_instance_second_call_constructs_again :
    (request_instance sampleContext CtorOutcome.ok "BodyController").1 = Except.ok 0 ∧
    (request_instance
        (request_instance sampleContext CtorOutcome.ok "BodyController").2
        CtorOutcome.ok "BodyController").1 = Except.ok 1 ∧
    (request_instance
        (request_instance sampleContext CtorOutcome.ok "BodyController").2
        CtorOutcome.ok "BodyController").2.nextBean = 2 ∧
    lookupKeyValue "BodyController" ⟨["singleton"], []⟩ = "" ∧
    (request_instance sampleContext CtorOutcome.ok "BodyController").2.activeBeans
      = [("BodyController&", 0)] :=
  ⟨rfl, rfl, rfl, rfl, rfl⟩

/-- C6: resolving an injection name that matches no registry entry raises
the Dependency-Injection not-found error, constructs no bean and leaves the
whole context state (in particular `active_beans`) unchanged. -/
theorem request_instance_unregistered_not_found (st : ContextState)
    (ctor : CtorOutcome) (injectionName : String)
    (h : findEntry st.registry injectionName = none) :
    request_instance st ctor injectionName =
      (Except.error (PyErr.dependencyInjection injectionNotFoundMsg), st) := by
  unfold request_instance
  rw [h]

/-- C6 witness: the name `"UserService"` is not registered in the sample
context, and resolution fails with the not-found error leaving the state
unchanged. -/
theorem request_instance_unregistered_not_found_witness :
    findEntry sampleContext.registry "UserService" = none ∧
    request_instance sampleContext CtorOutcome.ok "UserService" =
      (Except.error (PyErr.dependencyInjection injectionNotFoundMsg), sampleContext) :=
  ⟨by decide,
    request_instance_unregistered_not_found sampleContext CtorOutcome.ok "UserService"
      (by decide)⟩

/-- C7: inside `__create_bean`, a bad-request exception raised by the
component's constructor is re-raised unchanged, while any other exception
is turned into a Dependency-Injection failure whose message extends the
original error's message (the original message is a suffix of the new
one). -/
theorem create_bean_exception_wrapping (st : ContextState)
    (injectionName keyValue msg : String) :
    (createBean st (CtorOutcome.badRequest msg) injectionName keyValue).1 =
      Except.error (PyErr.badRequest msg) ∧
    ∃ p, (createBean st (CtorOutcome.failure msg) injectionName keyValue).1 =
      Except.error (PyErr.dependencyInjection (p ++ msg)) :=
  ⟨rfl,
    ⟨"[chalicelib.core.context][request_instance]: Occurred some error when creating "
        ++ injectionName ++ ": ",
      by simp [createBean, createBeanErrorMsg, String.append_assoc]⟩⟩

/-! ## Request options model (chalicelib/domain/request_options.py)

`RequestOperations` is extended by `MySQLRequestOperations` with `LIKE`
(via `extend_enum`); the embedding uses the extended enumeration.  Filter
operands are either a scalar or a list; rows carry integer column values,
so operands are integers. -/

/-- The (extended) request-operations enumeration. -/
inductive RequestOperations where
  | EQUALS
  | NOT_EQUALS
  | LESS
  | GREATER
  | CONTAINS
  | BETWEEN
  | LIKE
deriving DecidableEq, Repr

/-- `str(request_operation)` as Python prints an enum member. -/
def RequestOperations.pyStr : RequestOperations → String
  | RequestOperations.EQUALS => "RequestOperations.EQUALS"
  | RequestOperations.NOT_EQUALS => "RequestOperations.NOT_EQUALS"
  | RequestOperations.LESS => "RequestOperations.LESS"
  | RequestOperations.GREATER => "RequestOperations.GREATER"
  | RequestOperations.CONTAINS => "RequestOperations.CONTAINS"
  | RequestOperations.BETWEEN => "RequestOperations.BETWEEN"
  | RequestOperations.LIKE => "MySQLRequestOperations.LIKE"

/-- A filter operand: `Union[object, List[object]]` with integer values. -/
inductive RequestValue where
  | scalar (v : Int)
  | listVal (vs : List Int)
deriving DecidableEq, Repr

/-- `isinstance(request_value, list)`. -/
def RequestValue.isList : RequestValue → Bool
  | RequestValue.scalar _ => false
  | RequestValue.listVal _ => true

/-- A constructed filter request. -/
structure FilterRequest where
  request_value : RequestValue
  request_operation : RequestOperations
deriving DecidableEq, Repr

/-- `FilterRequest.__init__`: the operation's enum type is enforced by the
Lean type (the `isinstance` check on `request_operation` cannot fail here);
a *list* operand is rejected unless the operation is `CONTAINS` or
`BETWEEN`.  No check is made on scalar operands. -/
def FilterRequest.make (request_value : RequestValue)
    (request_operation : RequestOperations) : Except PyErr FilterRequest :=
  if request_value.isList
      ∧ request_operation ≠ RequestOperations.CONTAINS
      ∧ request_operation ≠ RequestOperations.BETWEEN then
    Except.error (PyErr.inputParameter
      ("[chalicelib.domain.request_options][__init__]: Request_operation "
        ++ request_operation.pyStr ++ " does not admit a list as value."))
  else
    Except.ok ⟨request_value, request_operation⟩

/-- The order-type enumeration (`asc` / `desc`). -/
inductive OrderType where
  | ASCENDING
  | DESCENDING
deriving DecidableEq, Repr

/-- The `.value` of an `OrderType` member. -/
def OrderType.value : OrderType → String
  | OrderType.ASCENDING => "asc"
  | OrderType.DESCENDING => "desc"

/-- A database row: column name → integer value (insertion-ordered
attribute dictionary of an ORM entity). -/
abbrev Row := List (String × Int)

/-- `getattr(class_, key)` evaluated on a row: the value of the named
column (entities are only queried on declared columns). -/
def getCol (r : Row) (key : String) : Int :=
  (r.lookup key).getD 0

/-- The pagination value object.  `page`, `page_size`, `total_size` are
optional integers, `order_by` an optional column name, `order_type` an
optional `OrderType`; `results` holds the current page's rows and
`additional_query_params` the caller-merged extra query parameters. -/
structure Pagination where
  page : Option Int
  page_size : Option Int
  total_size : Option Int
  order_by : Option String
  order_type : Option OrderType
  results : List Row
  additional_query_params : List (String × String)
deriving DecidableEq, Repr

/-- `Pagination.__init__`: the `isinstance(order_type, OrderType)` check is
enforced by the Lean type; page/page_size must both be truthy-or-both-unset
in the precise Python sense `(page and page_size is None) or (page_size and
page is None)`; the `int(...)` conversions are the identity on integer
inputs (the claims only construct with integers or `None`).  No check
relates `order_by` and `order_type`. -/
def Pagination.make (page page_size : Option Int) (order_by : Option String)
    (order_type : Option OrderType) : Except PyErr Pagination :=
  if (intTruthy page ∧ page_size = none) ∨ (intTruthy page_size ∧ page = none) then
    Except.error (PyErr.inputParameter
      ("[chalicelib.domain.request_options][__init__]: "
        ++ "Page and page size should be provided both (related parameters)"))
  else
    Except.ok ⟨page, page_size, none, order_by, order_type, [], []⟩

/-! ### FilterRequest / Pagination construction theorems -/

/-- C3 counterexample: constructing a `FilterRequest` with operator
`CONTAINS` and a *scalar* operand succeeds on the code, whereas the claim
says it raises an input-parameter error. -/
theorem filter_request_contains_scalar_accepted :
    (FilterRequest.make (RequestValue.scalar 5) RequestOperations.CONTAINS).isOk = true :=
  by decide

/-- C3 (amended): constructing with `CONTAINS` and a scalar operand is
*accepted* (only list operands are validated); constructing with `EQUALS`
and a list operand raises an input-parameter error; constructing with
`CONTAINS` and a list operand succeeds. -/
theorem filter_request_operand_validation (v : Int) (vs : List Int) :
    (FilterRequest.make (RequestValue.scalar v) RequestOperations.CONTAINS).isOk = true ∧
    (∃ m, FilterRequest.make (RequestValue.listVal vs) RequestOperations.EQUALS =
      Except.error (PyErr.inputParameter m)) ∧
    (FilterRequest.make (RequestValue.listVal vs) RequestOperations.CONTAINS).isOk = true := by
  refine ⟨by simp [FilterRequest.make, RequestValue.isList, Except.isOk, Except.toBool],
    ⟨_, rfl⟩, ?_⟩
  simp [FilterRequest.make, RequestValue.isList, Except.isOk, Except.toBool]

/-- C5 counterexample: constructing a `Pagination` with `order_by` set and
`order_type` unset *succeeds* on the code, whereas the claim says it raises
an input-parameter error. -/
theorem pagination_order_by_alone_accepted :
    (Pagination.make none none (some "name") none).isOk = true := by decide

/-- C5 (amended): `Pagination.__init__` does not enforce the
`order_by`/`order_type` pairing: construction succeeds with `order_by` set
and `order_type` unset, and with `order_type` set (a valid `OrderType`
member) and `order_by` unset; only the page/page_size pairing and the
`order_type` type are validated. -/
theorem pagination_order_fields_unpaired_accepted (ob : String) (ot : OrderType) :
    (Pagination.make none none (some ob) none).isOk = true ∧
    (Pagination.make none none none (some ot)).isOk = true := by
  constructor <;>
    simp [Pagination.make, intTruthy, Except.isOk, Except.toBool]

/-- C8: constructing `Pagination` with `page=2, page_size=None` raises an
input-parameter error; with both set to (any) positive integers it
succeeds; with both unset it succeeds (unpaged). -/
theorem pagination_page_pagesize_pairing (p s : Int) (hp : 1 ≤ p) (hs : 1 ≤ s) :
    (∃ m, Pagination.make (some 2) none none none =
      Except.error (PyErr.inputParameter m)) ∧
    (Pagination.make (some p) (some s) none none).isOk = true ∧
    (Pagination.make none none none none).isOk = true := by
  refine ⟨⟨_, rfl⟩, ?_, by decide⟩
  simp [Pagination.make, intTruthy, Except.isOk, Except.toBool]

/-- C8 witness: instantiation at `page=1, page_size=10`. -/
theorem pagination_page_pagesize_pairing_witness :
    (1 : Int) ≤ 1 ∧ (1 : Int) ≤ 10 ∧
    ((∃ m, Pagination.make (some 2) none none none =
        Except.error (PyErr.inputParameter m)) ∧
      (Pagination.make (some 1) (some 10) none none).isOk = true ∧
      (Pagination.make none none none none).isOk = true) :=
  ⟨by decide, by decide, pagination_page_pagesize_pairing 1 10 (by decide) (by decide)⟩

/-! ## Pagination URL synthesis (`Pagination.serialize`)

`serialize(path)` builds the response envelope.  URL strings join a
configured base domain with the path and append `?page=<n>&<query string>`;
what the claims observe is only whether each link is `null`, carries an
URL with a page number, or is the bare base URL (the guard
`if query_params_string and self.page` failed), so a link is modelled by
which of those three shapes it has, `pageUrl n` carrying the page number
`__get_page_value` computed for the relation. -/

/-- `ceil(a / b)` on integers, as `math.ceil` of the true division computes
it for exact arithmetic (floor division of the negation).  Division by
zero cannot occur on the claimed paths (`page_size` is positive). -/
def ceilDivInt (a b : Int) : Int :=
  -(Int.fdiv (-a) b)

/-- The five named page relations of the response envelope. -/
inductive LinkName where
  | selfPage
  | first
  | last
  | prev
  | next
deriving DecidableEq, Repr

/-- Shape of a serialized link value. -/
inductive LinkValue where
  | nullValue
  | pageUrl (page : Int)
  | baseUrl
deriving DecidableEq, Repr

/-- The `query` echo of the response: the non-pagination-total, non-null
attributes (`page`, `page_size`, `order_by`, `order_type.value`), plus the
caller-merged additional query parameters. -/
structure QueryEcho where
  page : Option Int
  page_size : Option Int
  order_by : Option String
  order_type : Option String
  additional : List (String × String)
deriving DecidableEq, Repr

/-- The serialized response envelope. -/
structure PaginationResponse where
  query : QueryEcho
  results : List Row
  count : Nat
  total_size : Int
  selfLink : LinkValue
  firstLink : LinkValue
  lastLink : LinkValue
  prevLink : LinkValue
  nextLink : LinkValue
deriving DecidableEq, Repr

/-- `Pagination.__get_page_value`: the page number for each relation, or
`None` when the relation does not apply.  The method first replaces a
`None` `total_size` by `len(self.results)`; it is only invoked under the
guard `query_params_string and self.page`, so `page` and `page_size` are
set there (`getD` defaults are never observed on guarded paths). -/
def Pagination.get_page_value (p : Pagination) (name : LinkName) : Option Int :=
  let total := p.total_size.getD (p.results.length : Int)
  let page := p.page.getD 0
  let page_size := p.page_size.getD 0
  match name with
  | LinkName.selfPage => some page
  | LinkName.first => if page > 1 then some 1 else none
  | LinkName.last =>
      let max_result := ceilDivInt total page_size
      if page < max_result then some max_result else none
  | LinkName.prev => if page > 1 then some (page - 1) else none
  | LinkName.next =>
      let max_result := ceilDivInt total page_size
      if page < max_result then some (page + 1) else none

/-- Whether the query string built by `__add_urls_parameters` is non-empty:
it contains every non-null query attribute other than `page` (i.e.
`page_size`, `order_by`, `order_type`) and the additional query
parameters. -/
def Pagination.query_string_nonempty (p : Pagination) : Bool :=
  p.page_size.isSome || p.order_by.isSome || p.order_type.isSome
    || !p.additional_query_params.isEmpty

/-- The link produced for one relation: when the query string is non-empty
and `page` is truthy, a `None` page value serializes to `null` and a
computed page value to the URL carrying it; otherwise the bare base URL is
kept. -/
def Pagination.link (p : Pagination) (name : LinkName) : LinkValue :=
  if p.query_string_nonempty && intTruthy p.page then
    match p.get_page_value name with
    | none => LinkValue.nullValue
    | some v => LinkValue.pageUrl v
  else
    LinkValue.baseUrl

/-- `Pagination.serialize`: each result serializes via its own `serialize`
method if present, else a raw attribute dump — for a `Row` both are the
attribute dictionary itself, so `results` are kept as rows.  `count` is the
length of the serialized results; `total_size` falls back to that length
when no count was computed (`__get_page_value` performs that same fallback
assignment before the final read, so the response value is
`total_size.getD count` on every path). -/
def Pagination.serialize (p : Pagination) : PaginationResponse :=
  let results_list := p.results
  { query :=
      { page := p.page
        page_size := p.page_size
        order_by := p.order_by
        order_type := p.order_type.map OrderType.value
        additional := p.additional_query_params }
    results := results_list
    count := results_list.length
    total_size := p.total_size.getD (results_list.length : Int)
    selfLink := p.link LinkName.selfPage
    firstLink := p.link LinkName.first
    lastLink := p.link LinkName.last
    prevLink := p.link LinkName.prev
    nextLink := p.link LinkName.next }

/-- C9: for every pagination with `page` and `page_size` set (positive),
`serialize` yields `first=null` and `prev=null` exactly when `page = 1`,
and `last=null` and `next=null` exactly when
`page ≥ ceil(total_size / page_size)` (with `total_size` falling back to
the result count); the `count` field is the length of the serialized
results, and `total_size` equals that length when no count was computed. -/
theorem serialize_link_nullness (p : Pagination) (pg sz : Int)
    (hpage : p.page = some pg) (hsize : p.page_size = some sz)
    (hpg : 1 ≤ pg) (hsz : 1 ≤ sz) :
    ((p.serialize.firstLink = LinkValue.nullValue ∧
        p.serialize.prevLink = LinkValue.nullValue) ↔ pg = 1) ∧
    ((p.serialize.lastLink = LinkValue.nullValue ∧
        p.serialize.nextLink = LinkValue.nullValue) ↔
      ceilDivInt (p.total_size.getD (p.results.length : Int)) sz ≤ pg) ∧
    p.serialize.count = p.results.length ∧
    (p.total_size = none → p.serialize.total_size = (p.results.length : Int)) := by
  obtain ⟨page, page_size, ts, ob, ot, rs, aqp⟩ := p
  simp only [Pagination.page] at hpage
  simp only [Pagination.page_size] at hsize
  subst hpage
  subst hsize
  have hpz : pg ≠ 0 := by omega
  have hguard :
      (Pagination.query_string_nonempty ⟨some pg, some sz, ts, ob, ot, rs, aqp⟩
        && intTruthy (some pg)) = true := by
    simp [Pagination.query_string_nonempty, intTruthy, hpz]
  refine ⟨?_, ?_, rfl, ?_⟩
  · simp only [Pagination.serialize, Pagination.link, hguard, if_pos,
      Pagination.get_page_value, Option.getD_some]
    split_ifs with h
    · simp only [reduceCtorEq, false_and, false_iff]
      omega
    · simp only [and_self, true_iff]
      omega
  · simp only [Pagination.serialize, Pagination.link, hguard, if_pos,
      Pagination.get_page_value, Option.getD_some]
    split_ifs with h
    · simp only [reduceCtorEq, false_and, false_iff, not_le]
      omega
    · simp only [and_self, true_iff]
      omega
  · intro h
    simp only [Pagination.total_size] at h
    subst h
    simp [Pagination.serialize]

/-- C9 witness: instantiation at `page=1, page_size=10`, no precomputed
total, no order fields, empty results. -/
theorem serialize_link_nullness_witness :
    (⟨some 1, some 10, none, none, none, [], []⟩ : Pagination).page = some 1 ∧
    (⟨some 1, some 10, none, none, none, [], []⟩ : Pagination).page_size = some 10 ∧
    (1 : Int) ≤ 1 ∧ (1 : Int) ≤ 10 ∧
    ((((⟨some 1, some 10, none, none, none, [], []⟩ : Pagination).serialize.firstLink
          = LinkValue.nullValue ∧
        (⟨some 1, some 10, none, none, none, [], []⟩ : Pagination).serialize.prevLink
          = LinkValue.nullValue) ↔ (1 : Int) = 1) ∧
      (((⟨some 1, some 10, none, none, none, [], []⟩ : Pagination).serialize.lastLink
          = LinkValue.nullValue ∧
        (⟨some 1, some 10, none, none, none, [], []⟩ : Pagination).serialize.nextLink
          = LinkValue.nullValue) ↔
        ceilDivInt ((⟨some 1, some 10, none, none, none, [], []⟩ : Pagination).total_size.getD
          ((⟨some 1, some 10, none, none, none, [], []⟩ : Pagination).results.length : Int)) 10
            ≤ 1) ∧
      (⟨some 1, some 10, none, none, none, [], []⟩ : Pagination).serialize.count
        = (⟨some 1, some 10, none, none, none, [], []⟩ : Pagination).results.length ∧
      ((⟨some 1, some 10, none, none, none, [], []⟩ : Pagination).total_size = none →
        (⟨some 1, some 10, none, none, none, [], []⟩ : Pagination).serialize.total_size
          = ((⟨some 1, some 10, none, none, none, [], []⟩ : Pagination).results.length : Int))) :=
  ⟨rfl, rfl, by decide, by decide,
    serialize_link_nullness ⟨some 1, some 10, none, none, none, [], []⟩ 1 10
      rfl rfl (by decide) (by decide)⟩

/-! ## MySQL query translator (chalicelib/repositories/mysql_translator.py)

The query object is the list of rows the SQLAlchemy query would currently
return (`query.all()`); each sentence narrows it.  Operations that
SQLAlchemy would reject at execution (membership test on a non-list,
`between` with an argument count other than two) surface as a `typeError`;
none of these combinations is reachable through `FilterRequest.make`. -/

/-- `query.filter(getattr(class_, key) == value)`. -/
def equals_operation (query : List Row) (key : String) (value : RequestValue) :
    Except PyErr (List Row) :=
  match value with
  | RequestValue.scalar v => Except.ok (query.filter (fun r => getCol r key == v))
  | RequestValue.listVal _ =>
      Except.error (PyErr.typeError "cannot compare a column to a list")

/-- `query.filter(getattr(class_, key) != value)`. -/
def not_equals_operation (query : List Row) (key : String) (value : RequestValue) :
    Except PyErr (List Row) :=
  match value with
  | RequestValue.scalar v => Except.ok (query.filter (fun r => getCol r key != v))
  | RequestValue.listVal _ =>
      Except.error (PyErr.typeError "cannot compare a column to a list")

/-- `query.filter(getattr(class_, key) < value)`. -/
def less_operation (query : List Row) (key : String) (value : RequestValue) :
    Except PyErr (List Row) :=
  match value with
  | RequestValue.scalar v => Except.ok (query.filter (fun r => getCol r key < v))
  | RequestValue.listVal _ =>
      Except.error (PyErr.typeError "cannot compare a column to a list")

/-- `query.filter(getattr(class_, key) > value)`. -/
def greater_operation (query : List Row) (key : String) (value : RequestValue) :
    Except PyErr (List Row) :=
  match value with
  | RequestValue.scalar v => Except.ok (query.filter (fun r => getCol r key > v))
  | RequestValue.listVal _ =>
      Except.error (PyErr.typeError "cannot compare a column to a list")

/-- `query.filter(getattr(class_, key).in_(value))`: membership requires a
list operand. -/
def contains_operation (query : List Row) (key : String) (value : RequestValue) :
    Except PyErr (List Row) :=
  match value with
  | RequestValue.listVal vs => Except.ok (query.filter (fun r => vs.contains (getCol r key)))
  | RequestValue.scalar _ =>
      Except.error (PyErr.typeError "in_() accepts a list of values")

/-- `between_operation`: a non-list operand is wrapped into a singleton
list first; `between(*value)` then needs exactly two bounds. -/
def between_operation (query : List Row) (key : String) (value : RequestValue) :
    Except PyErr (List Row) :=
  let vs := match value with
    | RequestValue.scalar v => [v]
    | RequestValue.listVal vs => vs
  match vs with
  | [a, b] =>
      Except.ok (query.filter (fun r => a ≤ getCol r key && getCol r key ≤ b))
  | _ => Except.error (PyErr.typeError "between() takes exactly two bounds")

/-- `query.filter(getattr(class_, key).like(value))`: MySQL coerces both
sides to strings; an integer pattern carries no wildcard, so the match is
decimal-string equality. -/
def like_operation (query : List Row) (key : String) (value : RequestValue) :
    Except PyErr (List Row) :=
  match value with
  | RequestValue.scalar v =>
      Except.ok (query.filter (fun r => toString (getCol r key) == toString v))
  | RequestValue.listVal _ =>
      Except.error (PyErr.typeError "like() accepts a scalar pattern")

/-- Insert a row into a sorted list (ordering step of `ORDER BY`). -/
def insertRowSorted (le : Row → Row → Bool) (r : Row) : List Row → List Row
  | [] => [r]
  | x :: xs => if le r x then r :: x :: xs else x :: insertRowSorted le r xs

/-- Sort rows by the given comparison. -/
def sortRows (le : Row → Row → Bool) : List Row → List Row
  | [] => []
  | x :: xs => insertRowSorted le x (sortRows le xs)

/-- `order_by_operation`: `query.order_by(asc(col))` / `...desc(col)...`
via `mapping_order`. -/
def order_by_operation (query : List Row) (key : String) (order_type : OrderType) :
    List Row :=
  match order_type with
  | OrderType.ASCENDING => sortRows (fun a b => decide (getCol a key ≤ getCol b key)) query
  | OrderType.DESCENDING => sortRows (fun a b => decide (getCol b key ≤ getCol a key)) query

/-- The `self.sentences` dispatch table: every (extended) operator maps to
its sentence; with the closed enumeration the `sentences.get(op, None)`
lookup never misses, so the lenient skip branch is unreachable here. -/
def sentence_for (op : RequestOperations) :
    List Row → String → RequestValue → Except PyErr (List Row) :=
  match op with
  | RequestOperations.EQUALS => equals_operation
  | RequestOperations.NOT_EQUALS => not_equals_operation
  | RequestOperations.LESS => less_operation
  | RequestOperations.GREATER => greater_operation
  | RequestOperations.CONTAINS => contains_operation
  | RequestOperations.BETWEEN => between_operation
  | RequestOperations.LIKE => like_operation

/-- `MySQLTranslator.count_table`: `SELECT COUNT(*)` over the full table,
with no filters applied. -/
def count_table (table : List Row) : Nat :=
  table.length

/-- Message of the `DatabaseException` raised by `paginate_items` when the
requested page exceeds the page count. -/
def pageNotFoundMsg (page records_per_page : Int) : String :=
  "[chalicelib.repositories.mysql_translator][paginate_items]:  Page "
    ++ toString page ++ " cannot exist with " ++ toString records_per_page
    ++ " records per page"

/-- `MySQLTranslator.paginate_items`.  `query` is the filtered (narrowed)
query, `table` the full table the separate `count_table` call sees.
Returns the data (or the raised error) together with the mutated
pagination object.  `LIMIT n OFFSET m` evaluates to dropping `m` rows and
taking `n`; a negative limit or offset cannot occur on claimed paths
(page and page size are positive there). -/
def paginate_items (pag? : Option Pagination) (query table : List Row) :
    Except PyErr (List Row) × Option Pagination :=
  match pag? with
  | none => (Except.ok query, none)
  | some pag0 =>
      let pag1 := { pag0 with total_size := some (query.length : Int) }
      let query1 :=
        if pag1.order_type.isSome && strTruthy pag1.order_by then
          order_by_operation query (pag1.order_by.getD "")
            (pag1.order_type.getD OrderType.ASCENDING)
        else query
      let full_entries := !(intTruthy pag1.page) || !(intTruthy pag1.page_size)
      let pag2 := if full_entries then { pag1 with page := some 1 } else pag1
      let page : Int := if full_entries then 1 else pag2.page.getD 1
      let records_per_page : Int := pag2.page_size.getD 0
      let total_records := count_table table
      if total_records = 0 then
        (Except.ok [], some pag2)
      else if !full_entries then
        let total_pages := ceilDivInt (total_records : Int) records_per_page
        if page > total_pages then
          (Except.error (PyErr.database (pageNotFoundMsg page records_per_page)), some pag2)
        else
          let data := (query1.drop ((page - 1) * records_per_page).toNat).take
            records_per_page.toNat
          (Except.ok data, some { pag2 with results := data })
      else
        (Except.ok query1, some { pag2 with results := query1 })

/-- The request-options aggregate handed to the translator.  The
constructor's filter sanitation (`verify_valid_filters`) degrades invalid
collections to an empty dictionary; the embedding receives the sanitized
dictionary directly. -/
structure RequestOptions where
  request_filters : List (String × FilterRequest)
  pagination : Option Pagination
  cache : Bool
  cache_multi : Bool
  return_values : List String
deriving DecidableEq, Repr

/-- `item.serialize(return_values)` on a row: the projection of the
attribute dictionary onto the requested fields. -/
def serializeRow (return_values : List String) (r : Row) : Row :=
  r.filter (fun kv => return_values.contains kv.1)

/-- The `for key, filter_request in request_options.request_filters.items()`
loop: apply each sentence in turn, propagating a raised error. -/
def applyFilters : List (String × FilterRequest) → List Row → Except PyErr (List Row)
  | [], query => Except.ok query
  | (key, fr) :: rest, query =>
      match sentence_for fr.request_operation query key fr.request_value with
      | Except.error e => Except.error e
      | Except.ok query1 => applyFilters rest query1

/-- `MySQLTranslator.translate_operation`: narrow the query with every
filter sentence, paginate, then replace each record by its serialized
projection when `return_values` is non-empty. -/
def translate_operation (ro : RequestOptions) (query table : List Row) :
    Except PyErr (List Row) × Option Pagination :=
  match applyFilters ro.request_filters query with
  | Except.error e => (Except.error e, ro.pagination)
  | Except.ok query1 =>
      match paginate_items ro.pagination query1 table with
      | (Except.error e, pag) => (Except.error e, pag)
      | (Except.ok data, pag) =>
          if !ro.return_values.isEmpty then
            (Except.ok (data.map (serializeRow ro.return_values)), pag)
          else
            (Except.ok data, pag)

/-- Message of the `BadRequestError` raised by `query_operations` on an
empty result. -/
def noDataMsg : String :=
  "[chalicelib.repositories.mysql_repository][query_operations]: "
    ++ "There\x27s no data in the query request"

/-- `BaseRepository.query_operations`: run the translation and raise a
bad-request error when it yields no records; otherwise close the session
and return the data. -/
def query_operations (ro : RequestOptions) (query table : List Row) :
    Except PyErr (List Row) :=
  match translate_operation ro query table with
  | (Except.error e, _) => Except.error e
  | (Except.ok data, _) =>
      if data.isEmpty then
        Except.error (PyErr.badRequest noDataMsg)
      else
        Except.ok data

/-! ### Pagination / repository theorems -/

/-- C2 counterexample: with an *empty* table and `page=1, page_size=10`,
`total_pages = ceil(0/10) = 0` and `page > total_pages`, so the claim's
"raises a Database error exactly when page > total_pages" demands an
error; the code instead returns the empty list (the zero-count early
return precedes the bounds check). -/
theorem paginate_items_empty_table_skips_bounds_check :
    (1 : Int) > ceilDivInt ((([] : List Row).length : Int)) 10 ∧
    (paginate_items (some ⟨some 1, some 10, none, none, none, [], []⟩)
        ([] : List Row) ([] : List Row)).1 = Except.ok [] :=
  ⟨by decide, rfl⟩

/-- C2 (amended): for a pagination with positive `page` and `page_size` and
no ordering, `paginate_items` stores the *filtered* result count in
`total_size`; when the unfiltered table count is zero it returns the empty
list without the page-bounds check; otherwise it raises a Database error
exactly when `page > total_pages = ceil(tableCount / page_size)`, and
otherwise returns `LIMIT page_size OFFSET (page-1)*page_size` of the
filtered query. -/
theorem paginate_items_bounds (pag : Pagination) (query table : List Row) (p s : Int)
    (hpage : pag.page = some p) (hsize : pag.page_size = some s)
    (hp : 1 ≤ p) (hs : 1 ≤ s) (hord : pag.order_type = none) :
    ((paginate_items (some pag) query table).2.map Pagination.total_size
        = some (some (query.length : Int))) ∧
    (table.length = 0 →
      (paginate_items (some pag) query table).1 = Except.ok []) ∧
    (table.length ≠ 0 → ceilDivInt (table.length : Int) s < p →
      (paginate_items (some pag) query table).1 =
        Except.error (PyErr.database (pageNotFoundMsg p s))) ∧
    (table.length ≠ 0 → p ≤ ceilDivInt (table.length : Int) s →
      (paginate_items (some pag) query table).1 =
        Except.ok ((query.drop ((p - 1) * s).toNat).take s.toNat)) := by
  obtain ⟨page, page_size, ts, ob, ot, rs, aqp⟩ := pag
  simp only [Pagination.page] at hpage
  simp only [Pagination.page_size] at hsize
  simp only [Pagination.order_type] at hord
  subst hpage
  subst hsize
  subst hord
  have hptr : intTruthy (some p) = true := by
    simp only [intTruthy, bne_iff_ne, ne_eq, decide_eq_true_eq]
    omega
  have hstr : intTruthy (some s) = true := by
    simp only [intTruthy, bne_iff_ne, ne_eq, decide_eq_true_eq]
    omega
  refine ⟨?_, ?_, ?_, ?_⟩
  · simp only [paginate_items, Option.isSome_none, Bool.false_and, Bool.if_false_left,
      hptr, hstr, Bool.not_true, Bool.or_self, if_neg, Bool.false_eq_true, if_false,
      count_table, Option.getD_some]
    split_ifs <;> simp
  · intro h0
    simp [paginate_items, hptr, hstr, count_table, h0]
  · intro h0 hgt
    simp only [paginate_items, Option.isSome_none, Bool.false_and, Bool.if_false_left,
      hptr, hstr, Bool.not_true, Bool.or_self, Bool.false_eq_true, if_false,
      count_table, Option.getD_some]
    rw [if_neg h0, if_pos (by omega : p > ceilDivInt (table.length : Int) s)]
    simp
  · intro h0 hle
    simp only [paginate_items, Option.isSome_none, Bool.false_and, Bool.if_false_left,
      hptr, hstr, Bool.not_true, Bool.or_self, Bool.false_eq_true, if_false,
      count_table, Option.getD_some]
    rw [if_neg h0, if_neg (by omega : ¬p > ceilDivInt (table.length : Int) s)]
    simp

/-- A 25-row single-column table: rows `id = 1 .. 25`. -/
def tableOf25 : List Row :=
  (List.range 25).map (fun i => [("id", (i : Int) + 1)])

/-- Rows `id = 21 .. 25`, the last five of `tableOf25`. -/
def lastFiveRows : List Row :=
  (List.range 5).map (fun i => [("id", (i : Int) + 21)])

/-- Pagination requesting page 3 of size 10. -/
def pageThree : Pagination := ⟨some 3, some 10, none, none, none, [], []⟩

/-- Pagination requesting page 4 of size 10. -/
def pageFour : Pagination := ⟨some 4, some 10, none, none, none, [], []⟩

/-- C2 witness: over the unfiltered 25-row table, `page=3, page_size=10`
succeeds and returns the last 5 rows, and `page=4, page_size=10` raises
the Database error — both by the amended theorem. -/
theorem paginate_items_bounds_witness :
    pageThree.page = some 3 ∧ pageThree.page_size = some 10 ∧
    (1 : Int) ≤ 3 ∧ (1 : Int) ≤ 10 ∧ pageThree.order_type = none ∧
    tableOf25.length ≠ 0 ∧ (3 : Int) ≤ ceilDivInt (tableOf25.length : Int) 10 ∧
    (paginate_items (some pageThree) tableOf25 tableOf25).1 =
      Except.ok ((tableOf25.drop (((3 : Int) - 1) * 10).toNat).take (10 : Int).toNat) ∧
    (tableOf25.drop (((3 : Int) - 1) * 10).toNat).take (10 : Int).toNat = lastFiveRows ∧
    ceilDivInt (tableOf25.length : Int) 10 < (4 : Int) ∧
    (paginate_items (some pageFour) tableOf25 tableOf25).1 =
      Except.error (PyErr.database (pageNotFoundMsg 4 10)) :=
  ⟨rfl, rfl, by decide, by decide, rfl, by decide, by decide,
    (paginate_items_bounds pageThree tableOf25 tableOf25 3 10 rfl rfl
        (by decide) (by decide) rfl).2.2.2 (by decide) (by decide),
    by decide,
    by decide,
    (paginate_items_bounds pageFour tableOf25 tableOf25 4 10 rfl rfl
        (by decide) (by decide) rfl).2.2.1 (by decide) (by decide)⟩

/-- C10: whenever the translated query yields no records (the unfiltered
zero-count early return included), `query_operations` does not return the
empty list: it raises the bad-request error stating there is no data in
the query request. -/
theorem query_operations_empty_raises (ro : RequestOptions) (query table : List Row)
    (h : (translate_operation ro query table).1 = Except.ok []) :
    query_operations ro query table = Except.error (PyErr.badRequest noDataMsg) := by
  unfold query_operations
  rcases htr : translate_operation ro query table with ⟨res, pag⟩
  rw [htr] at h
  simp only at h
  subst h
  simp

/-- Request options with no filters and pagination `page=1, page_size=10`. -/
def pagedOptions : RequestOptions :=
  ⟨[], some ⟨some 1, some 10, none, none, none, [], []⟩, false, false, []⟩

/-- C10 witness: over an empty table (unfiltered count zero, so
`paginate_items` returns the empty list without the bounds check) the
repository raises the bad-request error. -/
theorem query_operations_empty_raises_witness :
    (translate_operation pagedOptions ([] : List Row) ([] : List Row)).1 =
      Except.ok [] ∧
    query_operations pagedOptions ([] : List Row) ([] : List Row) =
      Except.error (PyErr.badRequest noDataMsg) :=
  ⟨rfl, query_operations_empty_raises pagedOptions [] [] rfl⟩

/-! ## Body parameter controller (chalicelib/controllers/validation.py)

`BodyController.__init__` reads `request.json_body`.  Chalice parses the
raw body as JSON and raises its `BadRequestError` when the body does not
parse; the controller catches that and raises a `BadRequestException`.
Only on a successful parse does it delegate the parsed body to
`ParameterController.__init__`.  The parse outcome is the input of the
embedding: `Except.error ()` stands for an unparseable body such as the
raw payload `"abc1234"`. -/

/-- Message of the `BadRequestException` raised on an unparseable body. -/
def bodyErrorMsg : String :=
  "There is an error in body of HTTP request"

/-- `BodyController.__init__` over the outcome of `request.json_body`:
re-raise a parse failure as a bad-request error; on success hand the
parsed body to the parent constructor (which stores it as the controller's
parameters). -/
def bodyControllerInit {α : Type} (json_body : Except Unit α) : Except PyErr α :=
  match json_body with
  | Except.error _ => Except.error (PyErr.badRequest bodyErrorMsg)
  | Except.ok body => Except.ok body

/-- C4: the claim is false on the code.  For a request body that fails to
parse (such as the raw body `"abc1234"`), `BodyController.__init__` raises
a bad-request error and produces *no* value at all — in particular not the
single-element list `["abc1234"]` the claim (and the repository's own test
`test_body_parameter_process_no_json`) expects. -/
theorem body_controller_unparseable_body_raises :
    bodyControllerInit (Except.error () : Except Unit (List String)) =
      Except.error (PyErr.badRequest bodyErrorMsg) ∧
    ∀ r : List String,
      bodyControllerInit (Except.error () : Except Unit (List String)) ≠ Except.ok r :=
  ⟨rfl, fun _ h => Except.noConfusion h⟩

end ServerlessTemplate
